import Mathlib

/-!
Verification of the INA_226 I2C current/power sensor driver
(src/lib/sensors/INA_226.cpp).

Modelling conventions:
- C floating-point values are modelled as exact rationals (ℚ); the scale
  constants in the source are exact decimal literals.
- Machine integers are modelled as Nat with explicit truncation: storing into
  a u_int8_t buffer cell is `% 256`, storing into a u_int16_t is `% 2 ^ 16`,
  and `x &&& 0xFF` is kept literally as in the source.
- The I2C bus transport is an external collaborator whose declaration lives in
  the missing header INA_226.h; it is modelled from the spec (see `I2C`).
  Driver calls thread the transport state `σ` explicitly, and a transport
  failure is an `Except.error` that the driver never catches.
- Each member function returns the final value of the receiver object next to
  its result, so that (non-)mutation of the driver's fields is observable.
-/

/-- Failure signalled by the bus transport: NACK, bus timeout, arbitration
loss. Modelled from the spec, which classifies all transport failures into
this single taxonomy. -/
inductive BusError where
  | nack
  | timeout
  | arbitrationLost
  deriving DecidableEq

/-- Modelled from the spec: the I2C bus transport (declared in the missing
header INA_226.h, external to this layer). `write addr buf len s` issues a
blocking write of `len` bytes; `read addr buf len repeated s` issues a
blocking read of `len` bytes with `repeated` controlling the repeated start
condition. Each call either completes, yielding a protocol status
(for writes) or the received bytes (for reads) together with the next
transport state, or signals a transport failure, which this layer does not
catch. -/
structure I2C (σ : Type) where
  write : Nat → List Nat → Nat → σ → Except BusError (Int × σ)
  read : Nat → List Nat → Nat → Bool → σ → Except BusError (List Nat × σ)

/-- Constants from the head of INA_226.cpp, floats modelled as exact ℚ. -/
def INA_226_CALIBRATION_REGISTER_CONSTANT : ℚ := 0.00512

/-- Current register scale: Amps per bit. -/
def INA_226_CURRENT_REGISTER_LSB : ℚ := 0.001

/-- Voltage register scale: Volts per bit. -/
def INA_226_VOLTAGE_REGISTER_LSB : ℚ := 0.00125

/-- Power register scale: Watts per bit, 25 times the current LSB, exactly as
written in the source. -/
def INA_226_POWER_REGISTER_LSB : ℚ := 25 * INA_226_CURRENT_REGISTER_LSB

/-- Constructor argument bundle. Field types are modelled from the spec (the
defining header is not among the sources): currents and resistances are
floats (ℚ here), the sensor address is a 7-bit integer, pin names are opaque
identifiers. -/
structure ComponentConfig where
  max_expected_current : ℚ
  shunt_resistance : ℚ
  sensor_address : Nat
  SDA_pinname : Nat
  SCL_pinname : Nat

/-- Configuration sub-fields handed to configureSensor. Field types are
modelled from the spec (header missing): small unsigned integers. -/
structure SensorModes where
  operation_mode : Nat
  shunt_voltage_conversion_setting : Nat
  bus_voltage_conversion_setting : Nat
  average_mode_setting : Nat
  reset_registers : Nat

/-- Member state of the INA_226 driver object. Register addresses are single
bytes; the sensor address is the 8-bit wire address. -/
structure INA_226 where
  m_max_expected_current : ℚ
  m_current_lsb : ℚ
  m_shunt_resistance : ℚ
  m_sensor_address : Nat
  m_config_register : Nat
  m_voltage_register : Nat
  m_power_register : Nat
  m_current_register : Nat
  m_calibration_register : Nat
  m_mask_enable_register : Nat
  m_alert_limit_register : Nat

/-- The constructor INA_226::INA_226 (INA_226.cpp lines 12-29):
current_lsb = max_expected_current / pow(2,15), shunt resistance copied,
sensor address left-shifted one bit into an 8-bit field (`% 256` models the
8-bit storage the spec prescribes), register map fixed per datasheet. -/
def INA_226.construct (component_config : ComponentConfig) : INA_226 :=
  { m_max_expected_current := component_config.max_expected_current
    m_current_lsb := component_config.max_expected_current / 2 ^ 15
    m_shunt_resistance := component_config.shunt_resistance
    m_sensor_address := (component_config.sensor_address <<< 1) % 256
    m_config_register := 0x00
    m_voltage_register := 0x01
    m_power_register := 0x03
    m_current_register := 0x04
    m_calibration_register := 0x05
    m_mask_enable_register := 0x06
    m_alert_limit_register := 0x07 }

/-- INA_226::getCurrentData (lines 33-44): pointer write of the current
register, two-byte read, little-endian reassembly `cmd[1] << 8 | cmd[0]`
into a u_int16_t, scaled by the current LSB. Received bytes land in a
u_int8_t buffer, hence `% 256`. -/
def INA_226.getCurrentData {σ : Type} (dev : INA_226) (i2c_ : I2C σ) (s : σ) :
    Except BusError (ℚ × INA_226 × σ) :=
  let cmd : List Nat := [dev.m_current_register, 0x00]
  match i2c_.write dev.m_sensor_address cmd 1 s with
  | .error e => .error e
  | .ok (_, s) =>
    match i2c_.read dev.m_sensor_address cmd 2 false s with
    | .error e => .error e
    | .ok (buf, s) =>
      let b0 : Nat := buf.getD 0 0 % 256
      let b1 : Nat := buf.getD 1 0 % 256
      let current_data : Nat := (b1 <<< 8 ||| b0) % 2 ^ 16
      .ok ((current_data : ℚ) * INA_226_CURRENT_REGISTER_LSB, dev, s)

/-- INA_226::getVoltageData (lines 46-56): same read pattern on the voltage
register, scaled by the voltage LSB. -/
def INA_226.getVoltageData {σ : Type} (dev : INA_226) (i2c_ : I2C σ) (s : σ) :
    Except BusError (ℚ × INA_226 × σ) :=
  let cmd : List Nat := [dev.m_voltage_register, 0x00]
  match i2c_.write dev.m_sensor_address cmd 1 s with
  | .error e => .error e
  | .ok (_, s) =>
    match i2c_.read dev.m_sensor_address cmd 2 false s with
    | .error e => .error e
    | .ok (buf, s) =>
      let b0 : Nat := buf.getD 0 0 % 256
      let b1 : Nat := buf.getD 1 0 % 256
      let voltage_data : Nat := (b1 <<< 8 ||| b0) % 2 ^ 16
      .ok ((voltage_data : ℚ) * INA_226_VOLTAGE_REGISTER_LSB, dev, s)

/-- INA_226::getPowerData (lines 58-68): same read pattern on the power
register (the aggregate initializer `{m_power_register}` zero-fills the
second buffer byte), scaled by the power LSB. -/
def INA_226.getPowerData {σ : Type} (dev : INA_226) (i2c_ : I2C σ) (s : σ) :
    Except BusError (ℚ × INA_226 × σ) :=
  let cmd : List Nat := [dev.m_power_register, 0x00]
  match i2c_.write dev.m_sensor_address cmd 1 s with
  | .error e => .error e
  | .ok (_, s) =>
    match i2c_.read dev.m_sensor_address cmd 2 false s with
    | .error e => .error e
    | .ok (buf, s) =>
      let b0 : Nat := buf.getD 0 0 % 256
      let b1 : Nat := buf.getD 1 0 % 256
      let power_data : Nat := (b1 <<< 8 ||| b0) % 2 ^ 16
      .ok ((power_data : ℚ) * INA_226_POWER_REGISTER_LSB, dev, s)

/-- INA_226::getAlertLimit (lines 137-147): same read pattern on the alert
limit register, the raw u_int16_t returned unscaled. -/
def INA_226.getAlertLimit {σ : Type} (dev : INA_226) (i2c_ : I2C σ) (s : σ) :
    Except BusError (Nat × INA_226 × σ) :=
  let cmd : List Nat := [dev.m_alert_limit_register, 0x00]
  match i2c_.write dev.m_sensor_address cmd 1 s with
  | .error e => .error e
  | .ok (_, s) =>
    match i2c_.read dev.m_sensor_address cmd 2 false s with
    | .error e => .error e
    | .ok (buf, s) =>
      let b0 : Nat := buf.getD 0 0 % 256
      let b1 : Nat := buf.getD 1 0 % 256
      let alert : Nat := (b1 <<< 8 ||| b0) % 2 ^ 16
      .ok (alert, dev, s)

/-- Bit packing of the five SensorModes sub-fields (INA_226.cpp lines 80-87):
a u_int16_t accumulator, each `|=` step truncated to 16 bits by the
accumulator's type, no masking of the sub-fields themselves. -/
def SensorModes.dataByte (configuration_bits : SensorModes) : Nat :=
  let dataByte : Nat := 0x00
  let dataByte := (dataByte ||| configuration_bits.operation_mode) % 2 ^ 16
  let dataByte := (dataByte ||| configuration_bits.shunt_voltage_conversion_setting <<< 3) % 2 ^ 16
  let dataByte := (dataByte ||| configuration_bits.bus_voltage_conversion_setting <<< 6) % 2 ^ 16
  let dataByte := (dataByte ||| configuration_bits.average_mode_setting <<< 9) % 2 ^ 16
  let dataByte := (dataByte ||| configuration_bits.reset_registers <<< 15) % 2 ^ 16
  dataByte

/-- The 3-byte buffer configureSensor transmits (lines 80-90):
[config register, dataByte & 0xFF, dataByte >> 8 & 0xFF]. -/
def INA_226.configCmd (dev : INA_226) (configuration_bits : SensorModes) : List Nat :=
  [dev.m_config_register, configuration_bits.dataByte &&& 0xFF,
    configuration_bits.dataByte >>> 8 &&& 0xFF]

/-- INA_226::configureSensor (lines 78-94): packs the word, writes the 3-byte
buffer, returns 0 with the bus write's protocol status discarded. -/
def INA_226.configureSensor {σ : Type} (dev : INA_226) (i2c_ : I2C σ)
    (configuration_bits : SensorModes) (s : σ) : Except BusError (Int × INA_226 × σ) :=
  match i2c_.write dev.m_sensor_address (dev.configCmd configuration_bits) 3 s with
  | .error e => .error e
  | .ok (_, s) => .ok (0, dev, s)

/-- The floating-point calibration value computed by calibrateSensor
(line 98): 0.00512 / (current_lsb * shunt_resistance). -/
def INA_226.calValue (dev : INA_226) : ℚ :=
  INA_226_CALIBRATION_REGISTER_CONSTANT / (dev.m_current_lsb * dev.m_shunt_resistance)

/-- Modelled from the spec: the source's `cal & 0xFF` applies bitwise
masking to a float object, which is ill-formed C++ as written; the spec
directs an explicit deterministic float-to-integer rule for the byte split.
We use the floor (equal to truncation toward zero for the non-negative
values arising here), clamped to 0 for negative values, where the C++
narrowing would be undefined. -/
def calTruncate (q : ℚ) : Nat := ⌊q⌋.toNat

/-- The 3-byte buffer calibrateSensor transmits (lines 100-105):
[calibration register, cal & 0xFF, cal >> 8 & 0xFF]. -/
def INA_226.calibCmd (dev : INA_226) : List Nat :=
  [dev.m_calibration_register, calTruncate dev.calValue &&& 0xFF,
    calTruncate dev.calValue >>> 8 &&& 0xFF]

/-- INA_226::calibrateSensor (lines 96-108): computes cal, writes the 3-byte
buffer, returns 0 with the bus write's protocol status discarded. -/
def INA_226.calibrateSensor {σ : Type} (dev : INA_226) (i2c_ : I2C σ) (s : σ) :
    Except BusError (Int × INA_226 × σ) :=
  match i2c_.write dev.m_sensor_address dev.calibCmd 3 s with
  | .error e => .error e
  | .ok (_, s) => .ok (0, dev, s)

/-- The 3-byte buffer setMaskEnableRegister transmits (lines 125-128). -/
def INA_226.maskEnableCmd (dev : INA_226) (bits_to_set : Nat) : List Nat :=
  [dev.m_mask_enable_register, bits_to_set &&& 0xFF, bits_to_set >>> 8 &&& 0xFF]

/-- INA_226::setMaskEnableRegister (lines 123-132): writes the 3-byte buffer,
returns 0 with the bus write's protocol status discarded. -/
def INA_226.setMaskEnableRegister {σ : Type} (dev : INA_226) (i2c_ : I2C σ)
    (bits_to_set : Nat) (s : σ) : Except BusError (Int × INA_226 × σ) :=
  match i2c_.write dev.m_sensor_address (dev.maskEnableCmd bits_to_set) 3 s with
  | .error e => .error e
  | .ok (_, s) => .ok (0, dev, s)

/-- The 3-byte buffer setAlertLimit transmits (lines 152-155). -/
def INA_226.alertLimitCmd (dev : INA_226) (alert_limit : Nat) : List Nat :=
  [dev.m_alert_limit_register, alert_limit &&& 0xFF, alert_limit >>> 8 &&& 0xFF]

/-- INA_226::setAlertLimit (lines 150-159): writes the 3-byte buffer,
returns 0 with the bus write's protocol status discarded. -/
def INA_226.setAlertLimit {σ : Type} (dev : INA_226) (i2c_ : I2C σ)
    (alert_limit : Nat) (s : σ) : Except BusError (Int × INA_226 × σ) :=
  match i2c_.write dev.m_sensor_address (dev.alertLimitCmd alert_limit) 3 s with
  | .error e => .error e
  | .ok (_, s) => .ok (0, dev, s)

/-- A bus transport that completes every transaction and delivers the fixed
byte list `bytes` on every read; used to drive the read accessors with known
register contents. -/
def constBus (bytes : List Nat) : I2C Unit where
  write := fun _ _ _ s => .ok (0, s)
  read := fun _ _ _ _ s => .ok (bytes, s)

/-- A bus transport whose write completes with protocol status `st`
(possibly a failure code) and whose read delivers `bytes`; the driver never
inspects `st`. -/
def statusBus (st : Int) (bytes : List Nat) : I2C Unit where
  write := fun _ _ _ s => .ok (st, s)
  read := fun _ _ _ _ s => .ok (bytes, s)

/-- A bus transport whose every transaction signals the transport failure
`e`. -/
def failBus (e : BusError) : I2C Unit where
  write := fun _ _ _ _ => .error e
  read := fun _ _ _ _ _ => .error e

/-- A bus transport that completes writes but fails every read with `e`. -/
def readFailBus (e : BusError) : I2C Unit where
  write := fun _ _ _ s => .ok (0, s)
  read := fun _ _ _ _ _ => .error e

/-- State of the mock register store: a 16-bit value per register address and
the currently selected register pointer. -/
structure MockState where
  regs : Nat → Nat
  pointer : Nat

/-- Modelled from the spec: effect of a chip-side write on the mock register
store. The first transmitted byte selects the register (pointer write); when
two further bytes follow they form the new register value, low byte first. -/
def mockWrite (s : MockState) (bytes : List Nat) : MockState :=
  match bytes with
  | [] => s
  | [r] => { s with pointer := r % 256 }
  | r :: lo :: rest =>
    { regs := fun reg =>
        if reg = r % 256 then ((lo % 256) ||| ((rest.headD 0 % 256) <<< 8)) % 2 ^ 16
        else s.regs reg
      pointer := r % 256 }

/-- Modelled from the spec: a mock bus transport backed by a register store;
writes update the store, reads return the selected register's value low byte
first. Every transaction completes. -/
def mockBus : I2C MockState where
  write := fun _ bytes len s => .ok (0, mockWrite s (bytes.take len))
  read := fun _ _ _ _ s =>
    .ok ([s.regs s.pointer % 256, (s.regs s.pointer >>> 8) % 256], s)

lemma and_0xFF (x : Nat) : x &&& 0xFF = x % 256 := by
  have h : (0xFF : Nat) = 2 ^ 8 - 1 := rfl
  rw [h, Nat.and_pow_two_sub_one_eq_mod]

lemma shiftRight8 (x : Nat) : x >>> 8 = x / 256 := by
  rw [Nat.shiftRight_eq_div_pow]

lemma or_eq_add8 (hi lo : Nat) (h : lo < 256) : (hi <<< 8) ||| lo = 256 * hi + lo := by
  have h8 : (256 : Nat) = 2 ^ 8 := by norm_num
  rw [Nat.shiftLeft_eq, Nat.mul_comm, h8]
  exact (Nat.mul_add_lt_is_or (by omega) hi).symm

lemma mod_or_mod (x y : Nat) : ((x % 2 ^ 16) ||| y) % 2 ^ 16 = (x ||| y) % 2 ^ 16 := by
  have hm : ∀ z : Nat, z % 2 ^ 16 = z &&& (2 ^ 16 - 1) := fun z =>
    (Nat.and_pow_two_sub_one_eq_mod z 16).symm
  rw [hm ((x % 2 ^ 16) ||| y), hm x, hm (x ||| y), Nat.and_distrib_right,
    Nat.and_assoc, Nat.and_self, ← Nat.and_distrib_right]

lemma reassemble_value (b0 b1 : Nat) :
    (((b1 % 256) <<< 8) ||| (b0 % 256)) % 2 ^ 16 = 256 * (b1 % 256) + b0 % 256 := by
  rw [or_eq_add8 _ _ (Nat.mod_lt b0 (by norm_num))]
  have h1 : b1 % 256 < 256 := Nat.mod_lt _ (by norm_num)
  have h0 : b0 % 256 < 256 := Nat.mod_lt _ (by norm_num)
  apply Nat.mod_eq_of_lt
  omega

/-- C1: for every raw 16-bit register value v delivered by the bus transport,
getCurrentData returns v × 0.001 (amps), getVoltageData returns v × 0.00125
(volts), and getPowerData returns v × 0.025 (watts), and the power scale
constant equals 25 times the current scale constant. -/
theorem getData_scaling (dev : INA_226) (v : Nat) (hv : v < 2 ^ 16) :
    dev.getCurrentData (constBus [v % 256, v / 256]) () = .ok ((v : ℚ) * 0.001, dev, ()) ∧
    dev.getVoltageData (constBus [v % 256, v / 256]) () = .ok ((v : ℚ) * 0.00125, dev, ()) ∧
    dev.getPowerData (constBus [v % 256, v / 256]) () = .ok ((v : ℚ) * 0.025, dev, ()) ∧
    INA_226_POWER_REGISTER_LSB = 25 * INA_226_CURRENT_REGISTER_LSB := by
  have key : (((v / 256 % 256) <<< 8) ||| (v % 256 % 256)) % 2 ^ 16 = v := by
    rw [reassemble_value]
    omega
  have e1 : dev.getCurrentData (constBus [v % 256, v / 256]) () =
      .ok ((((((v / 256 % 256) <<< 8) ||| (v % 256 % 256)) % 2 ^ 16 : Nat) : ℚ) *
        INA_226_CURRENT_REGISTER_LSB, dev, ()) := rfl
  have e2 : dev.getVoltageData (constBus [v % 256, v / 256]) () =
      .ok ((((((v / 256 % 256) <<< 8) ||| (v % 256 % 256)) % 2 ^ 16 : Nat) : ℚ) *
        INA_226_VOLTAGE_REGISTER_LSB, dev, ()) := rfl
  have e3 : dev.getPowerData (constBus [v % 256, v / 256]) () =
      .ok ((((((v / 256 % 256) <<< 8) ||| (v % 256 % 256)) % 2 ^ 16 : Nat) : ℚ) *
        INA_226_POWER_REGISTER_LSB, dev, ()) := rfl
  refine ⟨?_, ?_, ?_, rfl⟩
  · rw [e1, key]; rfl
  · rw [e2, key]; rfl
  · rw [e3, key]; norm_num [INA_226_POWER_REGISTER_LSB, INA_226_CURRENT_REGISTER_LSB]

/-- Witness for getData_scaling at the concrete register value 0x1234. -/
theorem getData_scaling_witness :
    (INA_226.construct ⟨1, 1, 0x40, 0, 0⟩).getCurrentData (constBus [0x34, 0x12]) () =
      .ok ((0x1234 : ℚ) * 0.001, INA_226.construct ⟨1, 1, 0x40, 0, 0⟩, ()) := by
  have h := (getData_scaling (INA_226.construct ⟨1, 1, 0x40, 0, 0⟩) 0x1234 (by norm_num)).1
  norm_num at h ⊢
  exact h

/-- C2: for every pair of bytes received during a register read (in
getCurrentData, getVoltageData, getPowerData, and getAlertLimit), the two
bytes are reassembled into an unsigned 16-bit value with the second received
byte as the high byte and the first as the low byte; in particular bytes
[0x34, 0x12] received in order reassemble to 0x1234, not 0x3412. -/
theorem reassembly_little_endian (dev : INA_226) (b0 b1 : Nat)
    (h0 : b0 < 256) (h1 : b1 < 256) :
    dev.getAlertLimit (constBus [b0, b1]) () = .ok (256 * b1 + b0, dev, ()) ∧
    dev.getCurrentData (constBus [b0, b1]) () =
      .ok (((256 * b1 + b0 : Nat) : ℚ) * INA_226_CURRENT_REGISTER_LSB, dev, ()) ∧
    dev.getVoltageData (constBus [b0, b1]) () =
      .ok (((256 * b1 + b0 : Nat) : ℚ) * INA_226_VOLTAGE_REGISTER_LSB, dev, ()) ∧
    dev.getPowerData (constBus [b0, b1]) () =
      .ok (((256 * b1 + b0 : Nat) : ℚ) * INA_226_POWER_REGISTER_LSB, dev, ()) ∧
    dev.getAlertLimit (constBus [0x34, 0x12]) () = .ok (0x1234, dev, ()) := by
  have key : ∀ c0 c1 : Nat, c0 < 256 → c1 < 256 →
      (((c1 % 256) <<< 8) ||| (c0 % 256)) % 2 ^ 16 = 256 * c1 + c0 := by
    intro c0 c1 hc0 hc1
    rw [reassemble_value]
    omega
  have eA : ∀ c0 c1 : Nat, dev.getAlertLimit (constBus [c0, c1]) () =
      .ok ((((c1 % 256) <<< 8) ||| (c0 % 256)) % 2 ^ 16, dev, ()) := fun _ _ => rfl
  refine ⟨?_, ?_, ?_, ?_, ?_⟩
  · rw [eA, key b0 b1 h0 h1]
  · have e : dev.getCurrentData (constBus [b0, b1]) () =
        .ok (((((b1 % 256) <<< 8) ||| (b0 % 256)) % 2 ^ 16 : Nat) *
          INA_226_CURRENT_REGISTER_LSB, dev, ()) := rfl
    rw [e, key b0 b1 h0 h1]
  · have e : dev.getVoltageData (constBus [b0, b1]) () =
        .ok (((((b1 % 256) <<< 8) ||| (b0 % 256)) % 2 ^ 16 : Nat) *
          INA_226_VOLTAGE_REGISTER_LSB, dev, ()) := rfl
    rw [e, key b0 b1 h0 h1]
  · have e : dev.getPowerData (constBus [b0, b1]) () =
        .ok (((((b1 % 256) <<< 8) ||| (b0 % 256)) % 2 ^ 16 : Nat) *
          INA_226_POWER_REGISTER_LSB, dev, ()) := rfl
    rw [e, key b0 b1 h0 h1]
  · rw [eA, key 0x34 0x12 (by norm_num) (by norm_num)]

/-- Witness for reassembly_little_endian at bytes 0x34, 0x12. -/
theorem reassembly_little_endian_witness :
    (INA_226.construct ⟨1, 1, 0x40, 0, 0⟩).getAlertLimit (constBus [0x34, 0x12]) () =
      .ok (0x1234, INA_226.construct ⟨1, 1, 0x40, 0, 0⟩, ()) := by
  have h := (reassembly_little_endian (INA_226.construct ⟨1, 1, 0x40, 0, 0⟩) 0x34 0x12
    (by norm_num) (by norm_num)).1
  norm_num at h
  exact h

lemma scaled_bound (d : Nat) (hd : d < 65536) (c : ℚ) (hc : 0 ≤ c) :
    0 ≤ (d : ℚ) * c ∧ (d : ℚ) * c ≤ 65535 * c := by
  constructor
  · positivity
  · apply mul_le_mul_of_nonneg_right _ hc
    exact_mod_cast Nat.le_of_lt_succ hd

/-- C10: for every pair of bytes delivered by the bus, getCurrentData,
getVoltageData, getPowerData, and getAlertLimit treat the reassembled 16-bit
register value as unsigned, so their results are always non-negative and
bounded above by 65535 times the respective scale factor (and the raw alert
limit by 65535). -/
theorem get_data_unsigned_bounds {σ : Type} (dev : INA_226) (bus : I2C σ) (s : σ) :
    (∀ q dev2 s2, dev.getCurrentData bus s = .ok (q, dev2, s2) →
      0 ≤ q ∧ q ≤ 65535 * INA_226_CURRENT_REGISTER_LSB) ∧
    (∀ q dev2 s2, dev.getVoltageData bus s = .ok (q, dev2, s2) →
      0 ≤ q ∧ q ≤ 65535 * INA_226_VOLTAGE_REGISTER_LSB) ∧
    (∀ q dev2 s2, dev.getPowerData bus s = .ok (q, dev2, s2) →
      0 ≤ q ∧ q ≤ 65535 * INA_226_POWER_REGISTER_LSB) ∧
    (∀ a dev2 s2, dev.getAlertLimit bus s = .ok (a, dev2, s2) → a ≤ 65535) := by
  refine ⟨?_, ?_, ?_, ?_⟩
  · intro q dev2 s2 h
    simp only [INA_226.getCurrentData] at h
    split at h
    · exact absurd h (by simp)
    · split at h
      · exact absurd h (by simp)
      · simp only [Except.ok.injEq, Prod.mk.injEq] at h
        obtain ⟨hq, -, -⟩ := h
        rw [← hq]
        exact scaled_bound _ (Nat.mod_lt _ (by norm_num)) _ (by norm_num [INA_226_CURRENT_REGISTER_LSB])
  · intro q dev2 s2 h
    simp only [INA_226.getVoltageData] at h
    split at h
    · exact absurd h (by simp)
    · split at h
      · exact absurd h (by simp)
      · simp only [Except.ok.injEq, Prod.mk.injEq] at h
        obtain ⟨hq, -, -⟩ := h
        rw [← hq]
        exact scaled_bound _ (Nat.mod_lt _ (by norm_num)) _ (by norm_num [INA_226_VOLTAGE_REGISTER_LSB])
  · intro q dev2 s2 h
    simp only [INA_226.getPowerData] at h
    split at h
    · exact absurd h (by simp)
    · split at h
      · exact absurd h (by simp)
      · simp only [Except.ok.injEq, Prod.mk.injEq] at h
        obtain ⟨hq, -, -⟩ := h
        rw [← hq]
        exact scaled_bound _ (Nat.mod_lt _ (by norm_num)) _
          (by norm_num [INA_226_POWER_REGISTER_LSB, INA_226_CURRENT_REGISTER_LSB])
  · intro a dev2 s2 h
    simp only [INA_226.getAlertLimit] at h
    split at h
    · exact absurd h (by simp)
    · split at h
      · exact absurd h (by simp)
      · simp only [Except.ok.injEq, Prod.mk.injEq] at h
        obtain ⟨ha, -, -⟩ := h
        omega

/-- Witness for get_data_unsigned_bounds with a bus delivering bytes that the
chip would call a negative two's-complement value (0xFFFF). -/
theorem get_data_unsigned_bounds_witness :
    0 ≤ (65535 : ℚ) * 0.001 ∧ (65535 : ℚ) * 0.001 ≤ 65535 * INA_226_CURRENT_REGISTER_LSB := by
  have h := (get_data_unsigned_bounds (INA_226.construct ⟨1, 1, 0x40, 0, 0⟩)
    (constBus [0xFF, 0xFF]) ()).1 ((65535 : ℚ) * 0.001)
    (INA_226.construct ⟨1, 1, 0x40, 0, 0⟩) () (by
      have := (getData_scaling (INA_226.construct ⟨1, 1, 0x40, 0, 0⟩) 0xFFFF (by norm_num)).1
      norm_num at this ⊢
      exact this)
  exact h

/-- C3: for every SensorModes input, configureSensor builds the 16-bit wire
word as operation_mode | (shunt << 3) | (bus << 6) | (average << 9) |
(reset << 15), with no masking or validation of the sub-fields beyond the
fixed shifts (only the accumulator's own 16-bit width truncates); in
particular operation_mode = 0b111 with the rest 0 yields word 0x0007 and
value bytes [0x07, 0x00], and reset = 1 with the rest 0 yields word 0x8000
and value bytes [0x00, 0x80]. -/
theorem configureSensor_packing (cfg : SensorModes) (dev : INA_226) :
    cfg.dataByte = (cfg.operation_mode ||| cfg.shunt_voltage_conversion_setting <<< 3 |||
      cfg.bus_voltage_conversion_setting <<< 6 ||| cfg.average_mode_setting <<< 9 |||
      cfg.reset_registers <<< 15) % 2 ^ 16 ∧
    SensorModes.dataByte ⟨0b111, 0, 0, 0, 0⟩ = 0x0007 ∧
    dev.configCmd ⟨0b111, 0, 0, 0, 0⟩ = [dev.m_config_register, 0x07, 0x00] ∧
    SensorModes.dataByte ⟨0, 0, 0, 0, 1⟩ = 0x8000 ∧
    dev.configCmd ⟨0, 0, 0, 0, 1⟩ = [dev.m_config_register, 0x00, 0x80] := by
  have h7 : SensorModes.dataByte ⟨0b111, 0, 0, 0, 0⟩ = 0x0007 := by
    simp only [SensorModes.dataByte, Nat.zero_or, Nat.zero_shiftLeft, Nat.or_zero]
    norm_num
  have h8 : SensorModes.dataByte ⟨0, 0, 0, 0, 1⟩ = 0x8000 := by
    simp only [SensorModes.dataByte, Nat.zero_or, Nat.zero_shiftLeft, Nat.or_zero,
      Nat.shiftLeft_eq, Nat.zero_mod]
    norm_num
  refine ⟨?_, h7, ?_, h8, ?_⟩
  · simp only [SensorModes.dataByte, Nat.zero_or, mod_or_mod]
  · simp only [INA_226.configCmd, h7, and_0xFF, shiftRight8]
  · simp only [INA_226.configCmd, h8, and_0xFF, shiftRight8]

/-- C8: construction computes current_lsb = max_expected_current / 32768,
copies shunt_resistance, and left-shifts the supplied 7-bit device address by
one bit to produce the 8-bit wire address; in particular input address 0x40
produces wire address 0x80. -/
theorem construct_fields (c : ComponentConfig) :
    (INA_226.construct c).m_current_lsb = c.max_expected_current / 32768 ∧
    (INA_226.construct c).m_shunt_resistance = c.shunt_resistance ∧
    (c.sensor_address < 128 →
      (INA_226.construct c).m_sensor_address = 2 * c.sensor_address) ∧
    (INA_226.construct ⟨1, 1, 0x40, 0, 0⟩).m_sensor_address = 0x80 := by
  refine ⟨by norm_num [INA_226.construct], rfl, ?_, ?_⟩
  · intro h
    simp only [INA_226.construct, Nat.shiftLeft_eq]
    have : c.sensor_address * 2 ^ 1 = 2 * c.sensor_address := by ring
    rw [this]
    omega
  · norm_num [INA_226.construct, Nat.shiftLeft_eq]

/-- Witness for construct_fields at address 0x40. -/
theorem construct_fields_witness :
    (INA_226.construct ⟨1, 1, 0x40, 0, 0⟩).m_sensor_address = 2 * 0x40 :=
  (construct_fields ⟨1, 1, 0x40, 0, 0⟩).2.2.1 (by norm_num)

/-- C5: each of the four write operations (configureSensor, calibrateSensor,
setMaskEnableRegister, setAlertLimit) returns the success status code 0
whenever the transport call itself completes, for every protocol status the
underlying bus write reports — including failure codes — since the driver
discards that status. -/
theorem write_ops_always_report_success {σ : Type} (dev : INA_226) (bus : I2C σ)
    (s s2 : σ) (st : Int) (cfg : SensorModes) (bits limit : Nat) :
    (bus.write dev.m_sensor_address (dev.configCmd cfg) 3 s = .ok (st, s2) →
      dev.configureSensor bus cfg s = .ok (0, dev, s2)) ∧
    (bus.write dev.m_sensor_address dev.calibCmd 3 s = .ok (st, s2) →
      dev.calibrateSensor bus s = .ok (0, dev, s2)) ∧
    (bus.write dev.m_sensor_address (dev.maskEnableCmd bits) 3 s = .ok (st, s2) →
      dev.setMaskEnableRegister bus bits s = .ok (0, dev, s2)) ∧
    (bus.write dev.m_sensor_address (dev.alertLimitCmd limit) 3 s = .ok (st, s2) →
      dev.setAlertLimit bus limit s = .ok (0, dev, s2)) := by
  refine ⟨?_, ?_, ?_, ?_⟩
  · intro h
    simp only [INA_226.configureSensor, h]
  · intro h
    simp only [INA_226.calibrateSensor, h]
  · intro h
    simp only [INA_226.setMaskEnableRegister, h]
  · intro h
    simp only [INA_226.setAlertLimit, h]

/-- Witness for write_ops_always_report_success on a bus whose write
completes with the failing protocol status -5: the driver still reports 0. -/
theorem write_ops_always_report_success_witness :
    (INA_226.construct ⟨1, 1, 0x40, 0, 0⟩).configureSensor (statusBus (-5) [])
      ⟨0, 0, 0, 0, 0⟩ () = .ok (0, INA_226.construct ⟨1, 1, 0x40, 0, 0⟩, ()) :=
  (write_ops_always_report_success (INA_226.construct ⟨1, 1, 0x40, 0, 0⟩)
    (statusBus (-5) []) () () (-5) ⟨0, 0, 0, 0, 0⟩ 0 0).1 rfl

/-- C6: for every bus-transport failure occurring during getCurrentData,
getVoltageData, or getPowerData — whether in the pointer-write phase or the
read phase — the failure propagates to the caller exactly as the transport
signals it, neither caught nor reinterpreted by the driver. -/
theorem get_data_propagates_bus_error {σ : Type} (dev : INA_226) (bus : I2C σ)
    (s : σ) (e : BusError) :
    (bus.write dev.m_sensor_address [dev.m_current_register, 0x00] 1 s = .error e →
      dev.getCurrentData bus s = .error e) ∧
    (∀ st s2, bus.write dev.m_sensor_address [dev.m_current_register, 0x00] 1 s = .ok (st, s2) →
      bus.read dev.m_sensor_address [dev.m_current_register, 0x00] 2 false s2 = .error e →
      dev.getCurrentData bus s = .error e) ∧
    (bus.write dev.m_sensor_address [dev.m_voltage_register, 0x00] 1 s = .error e →
      dev.getVoltageData bus s = .error e) ∧
    (∀ st s2, bus.write dev.m_sensor_address [dev.m_voltage_register, 0x00] 1 s = .ok (st, s2) →
      bus.read dev.m_sensor_address [dev.m_voltage_register, 0x00] 2 false s2 = .error e →
      dev.getVoltageData bus s = .error e) ∧
    (bus.write dev.m_sensor_address [dev.m_power_register, 0x00] 1 s = .error e →
      dev.getPowerData bus s = .error e) ∧
    (∀ st s2, bus.write dev.m_sensor_address [dev.m_power_register, 0x00] 1 s = .ok (st, s2) →
      bus.read dev.m_sensor_address [dev.m_power_register, 0x00] 2 false s2 = .error e →
      dev.getPowerData bus s = .error e) := by
  refine ⟨?_, ?_, ?_, ?_, ?_, ?_⟩
  · intro h
    simp only [INA_226.getCurrentData, h]
  · intro st s2 hw hr
    simp only [INA_226.getCurrentData, hw, hr]
  · intro h
    simp only [INA_226.getVoltageData, h]
  · intro st s2 hw hr
    simp only [INA_226.getVoltageData, hw, hr]
  · intro h
    simp only [INA_226.getPowerData, h]
  · intro st s2 hw hr
    simp only [INA_226.getPowerData, hw, hr]

/-- Witness for get_data_propagates_bus_error: a NACK on the pointer write
surfaces unchanged from getCurrentData. -/
theorem get_data_propagates_bus_error_witness :
    (INA_226.construct ⟨1, 1, 0x40, 0, 0⟩).getCurrentData (failBus .nack) () =
      .error .nack :=
  (get_data_propagates_bus_error (INA_226.construct ⟨1, 1, 0x40, 0, 0⟩)
    (failBus .nack) () .nack).1 rfl

/-- The seven register-address fields of a driver object, bundled for
immutability statements. -/
def INA_226.regMap (dev : INA_226) : List Nat :=
  [dev.m_config_register, dev.m_voltage_register, dev.m_power_register,
    dev.m_current_register, dev.m_calibration_register, dev.m_mask_enable_register,
    dev.m_alert_limit_register]

/-- C9: the register address map set at construction (config=0x00,
voltage=0x01, power=0x03, current=0x04, calibration=0x05, mask/enable=0x06,
alert-limit=0x07) is never mutated: the constructor sets exactly these
values, and every read and write accessor leaves all stored register-address
fields unchanged in the driver object it returns. -/
theorem register_map_immutable {σ : Type} (dev : INA_226) (bus : I2C σ) (s : σ)
    (cfg : SensorModes) (bits limit : Nat) (c : ComponentConfig) :
    (INA_226.construct c).regMap = [0x00, 0x01, 0x03, 0x04, 0x05, 0x06, 0x07] ∧
    (∀ q dev2 s2, dev.getCurrentData bus s = .ok (q, dev2, s2) → dev2.regMap = dev.regMap) ∧
    (∀ q dev2 s2, dev.getVoltageData bus s = .ok (q, dev2, s2) → dev2.regMap = dev.regMap) ∧
    (∀ q dev2 s2, dev.getPowerData bus s = .ok (q, dev2, s2) → dev2.regMap = dev.regMap) ∧
    (∀ a dev2 s2, dev.getAlertLimit bus s = .ok (a, dev2, s2) → dev2.regMap = dev.regMap) ∧
    (∀ st dev2 s2, dev.configureSensor bus cfg s = .ok (st, dev2, s2) → dev2.regMap = dev.regMap) ∧
    (∀ st dev2 s2, dev.calibrateSensor bus s = .ok (st, dev2, s2) → dev2.regMap = dev.regMap) ∧
    (∀ st dev2 s2, dev.setMaskEnableRegister bus bits s = .ok (st, dev2, s2) → dev2.regMap = dev.regMap) ∧
    (∀ st dev2 s2, dev.setAlertLimit bus limit s = .ok (st, dev2, s2) → dev2.regMap = dev.regMap) := by
  refine ⟨rfl, ?_, ?_, ?_, ?_, ?_, ?_, ?_, ?_⟩
  · intro q dev2 s2 h
    simp only [INA_226.getCurrentData] at h
    split at h
    · exact absurd h (by simp)
    · split at h
      · exact absurd h (by simp)
      · simp only [Except.ok.injEq, Prod.mk.injEq] at h
        rw [← h.2.1]
  · intro q dev2 s2 h
    simp only [INA_226.getVoltageData] at h
    split at h
    · exact absurd h (by simp)
    · split at h
      · exact absurd h (by simp)
      · simp only [Except.ok.injEq, Prod.mk.injEq] at h
        rw [← h.2.1]
  · intro q dev2 s2 h
    simp only [INA_226.getPowerData] at h
    split at h
    · exact absurd h (by simp)
    · split at h
      · exact absurd h (by simp)
      · simp only [Except.ok.injEq, Prod.mk.injEq] at h
        rw [← h.2.1]
  · intro a dev2 s2 h
    simp only [INA_226.getAlertLimit] at h
    split at h
    · exact absurd h (by simp)
    · split at h
      · exact absurd h (by simp)
      · simp only [Except.ok.injEq, Prod.mk.injEq] at h
        rw [← h.2.1]
  · intro st dev2 s2 h
    simp only [INA_226.configureSensor] at h
    split at h
    · exact absurd h (by simp)
    · simp only [Except.ok.injEq, Prod.mk.injEq] at h
      rw [← h.2.1]
  · intro st dev2 s2 h
    simp only [INA_226.calibrateSensor] at h
    split at h
    · exact absurd h (by simp)
    · simp only [Except.ok.injEq, Prod.mk.injEq] at h
      rw [← h.2.1]
  · intro st dev2 s2 h
    simp only [INA_226.setMaskEnableRegister] at h
    split at h
    · exact absurd h (by simp)
    · simp only [Except.ok.injEq, Prod.mk.injEq] at h
      rw [← h.2.1]
  · intro st dev2 s2 h
    simp only [INA_226.setAlertLimit] at h
    split at h
    · exact absurd h (by simp)
    · simp only [Except.ok.injEq, Prod.mk.injEq] at h
      rw [← h.2.1]

/-- Witness for register_map_immutable: a read accessor on a concrete bus
leaves the constructed register map intact. -/
theorem register_map_immutable_witness :
    (INA_226.construct ⟨1, 1, 0x40, 0, 0⟩).regMap =
      (INA_226.construct ⟨1, 1, 0x40, 0, 0⟩).regMap :=
  (register_map_immutable (INA_226.construct ⟨1, 1, 0x40, 0, 0⟩) (constBus [0, 0]) ()
    ⟨0, 0, 0, 0, 0⟩ 0 0 ⟨1, 1, 0x40, 0, 0⟩).2.1 _ _ () rfl

/-- C4: calibrateSensor computes cal = 0.00512 / (current_lsb ×
shunt_resistance) and transmits its low and high bytes to the calibration
register; for max_expected_current = 1.0 and shunt_resistance = 0.002,
current_lsb = 1/32768 and cal = 83886.08 ≈ 83886, converted deterministically
to the two transmitted bytes (here 0xAE and 0x47 after the 16-bit byte
split). -/
theorem calibrateSensor_calibration (a p1 p2 : Nat) :
    (INA_226.construct ⟨1, 0.002, a, p1, p2⟩).m_current_lsb = 1 / 32768 ∧
    (INA_226.construct ⟨1, 0.002, a, p1, p2⟩).calValue =
      INA_226_CALIBRATION_REGISTER_CONSTANT / ((1 / 32768) * (0.002 : ℚ)) ∧
    (INA_226.construct ⟨1, 0.002, a, p1, p2⟩).calValue = 2097152 / 25 ∧
    calTruncate (INA_226.construct ⟨1, 0.002, a, p1, p2⟩).calValue = 83886 ∧
    (INA_226.construct ⟨1, 0.002, a, p1, p2⟩).calibCmd = [0x05, 0xAE, 0x47] := by
  have hval : (INA_226.construct ⟨1, 0.002, a, p1, p2⟩).calValue = 2097152 / 25 := by
    norm_num [INA_226.calValue, INA_226.construct, INA_226_CALIBRATION_REGISTER_CONSTANT]
  have hfloor : ⌊(2097152 : ℚ) / 25⌋ = 83886 := by
    rw [Int.floor_eq_iff]
    constructor
    · norm_num
    · norm_num
  have htr : calTruncate (INA_226.construct ⟨1, 0.002, a, p1, p2⟩).calValue = 83886 := by
    simp only [calTruncate, hval, hfloor]
    rfl
  refine ⟨?_, ?_, hval, htr, ?_⟩
  · norm_num [INA_226.construct]
  · rw [hval]
    norm_num [INA_226_CALIBRATION_REGISTER_CONSTANT]
  · simp only [INA_226.calibCmd, htr, and_0xFF, shiftRight8]
    norm_num [INA_226.construct]

lemma reassemble_value65536 (b0 b1 : Nat) :
    ((b1 % 256) <<< 8 ||| (b0 % 256)) % 65536 = 256 * (b1 % 256) + b0 % 256 :=
  reassemble_value b0 b1

/-- C7: for every 16-bit value v, calling setAlertLimit(v) and then
getAlertLimit against the same register store (a mock bus that stores the
written bytes and returns them on read) returns exactly v: the alert-limit
value passes through unscaled in both directions. -/
theorem alert_limit_roundtrip (c : ComponentConfig) (v : Nat) (hv : v < 2 ^ 16)
    (s : MockState) (st : Int) (dev1 dev2 : INA_226) (s1 s2 : MockState) (a : Nat) :
    (INA_226.construct c).setAlertLimit mockBus v s = .ok (st, dev1, s1) →
    dev1.getAlertLimit mockBus s1 = .ok (a, dev2, s2) →
    a = v := by
  intro h1 h2
  have e1 : (INA_226.construct c).setAlertLimit mockBus v s =
      .ok (0, INA_226.construct c,
        mockWrite s (List.take 3 ((INA_226.construct c).alertLimitCmd v))) := rfl
  rw [e1] at h1
  simp only [Except.ok.injEq, Prod.mk.injEq] at h1
  obtain ⟨-, hdev, hs⟩ := h1
  subst hdev
  subst hs
  have hstored : ((v &&& 255) % 256 ||| ((v >>> 8 &&& 255) % 256) <<< 8) % 65536 = v := by
    rw [and_0xFF, and_0xFF, shiftRight8, Nat.or_comm,
      reassemble_value65536 (v % 256) (v / 256 % 256)]
    omega
  have houter : ((v >>> 8 % 256) <<< 8 ||| v % 256) % 65536 = v := by
    rw [shiftRight8, reassemble_value65536 v (v / 256)]
    omega
  simp [INA_226.getAlertLimit, mockBus, INA_226.construct, INA_226.alertLimitCmd,
    mockWrite, hstored, houter] at h2
  exact h2.1.symm

/-- Witness for alert_limit_roundtrip: the value 0xBEEF written through
setAlertLimit is read back exactly by getAlertLimit on the mock store. -/
theorem alert_limit_roundtrip_witness : (0xBEEF : Nat) = 0xBEEF :=
  alert_limit_roundtrip ⟨1, 1, 0x40, 0, 0⟩ 0xBEEF (by norm_num) ⟨fun _ => 0, 0⟩ 0
    (INA_226.construct ⟨1, 1, 0x40, 0, 0⟩) (INA_226.construct ⟨1, 1, 0x40, 0, 0⟩)
    (mockWrite ⟨fun _ => 0, 0⟩
      (List.take 3 ((INA_226.construct ⟨1, 1, 0x40, 0, 0⟩).alertLimitCmd 0xBEEF)))
    (mockWrite
      (mockWrite ⟨fun _ => 0, 0⟩
        (List.take 3 ((INA_226.construct ⟨1, 1, 0x40, 0, 0⟩).alertLimitCmd 0xBEEF)))
      (List.take 1 [0x07, 0x00]))
    0xBEEF rfl (by rfl)
